import Mathlib

set_option maxRecDepth 1800

/-!
Verification development for the thrombophilia-advisor repository.

Shallow embedding of the two Python components:
* `src/verification/generate_complete_data.py` (the Catalog Builder): literal
  parameter tables, the record-building loops, and the serialization of the
  `data.js` artifact (`js_content`).
* `src/verification/verify_calculations.py` (the Decision Verifier):
  `calculate_thresholds`, `determine_decision`, `load_js_data` (the regex-based
  parser of `data.js`) and `compare_recommendations`.

Numeric fields are embedded as exact rationals.  Every decimal literal of the
Python source is written `dq m e`, denoting `m / 10^e` (so `dq 217 2` is the
source literal `2.17`); `dq` is built on `mkRat`, which the kernel can
evaluate, unlike the `OfScientific` decimal-literal elaboration.
-/

/-- Decimal literal helper: `dq m e` is the decimal number `m * 10⁻ᵉ`,
exactly as a rational.  Mirrors the decimal literals of the Python source. -/
def dq (m : Int) (e : Nat) : ℚ := mkRat m (10 ^ e)

/-- One recommendation record, with the exact fields (and field order) of the
dicts appended to the `recommendations` list in `generate_complete_data.py`.
`bleedingRisk` is only present for the R1-R10 family and `isReversed` only for
the R15-R20 family; absence of the Python dict key is modelled by `none`. -/
structure Recommendation where
  id : String
  pVTE : ℚ
  Tp : ℚ
  RRt : ℚ
  RRrx : ℚ
  H_low : ℚ
  H_high : ℚ
  RRbleed : ℚ
  decimals : Nat
  description : String
  ashDecision : String
  category : String
  group : String
  bleedingRisk : Option String
  isReversed : Option Bool
deriving DecidableEq

/-- Parameters of one base scenario of the `r1_10_base` dict
(generate_complete_data.py lines 39-70). -/
structure R1Base where
  pVTE : ℚ
  Tp : ℚ
  RRt : ℚ
  RRrx : ℚ
  RRbleed : ℚ
  description : String
  category : String
deriving DecidableEq

/-- One row of the `r11_14_data` / `r21_23_data` tuples:
(id, pVTE, Tp, RRt, RRrx, H, RRbleed, description). -/
structure Row8 where
  id : String
  pvte : ℚ
  tp : ℚ
  rrt : ℚ
  rrrx : ℚ
  h : ℚ
  rrbleed : ℚ
  desc : String
deriving DecidableEq

/-- One row of the `r15_20_data` tuples:
(id, pVTE, Tp, RRt, RRrx, H, description). -/
structure Row7 where
  id : String
  pvte : ℚ
  tp : ℚ
  rrt : ℚ
  rrrx : ℚ
  h : ℚ
  desc : String
deriving DecidableEq

/-- The `r1_10_base` dict (insertion order preserved). -/
def r1_10_base : List (String × R1Base) :=
  [("R1", { pVTE := dq 10 2, Tp := dq 38 2, RRt := dq 165 2, RRrx := dq 15 2, RRbleed := dq 217 2,
            description := "Unprovoked VTE - completed short-term treatment",
            category := "Symptomatic VTE" }),
   ("R2", { pVTE := dq 1 2, Tp := dq 38 2, RRt := dq 165 2, RRrx := dq 15 2, RRbleed := dq 217 2,
            description := "VTE provoked by surgery",
            category := "Symptomatic VTE" }),
   ("R3", { pVTE := dq 5 2, Tp := dq 38 2, RRt := dq 165 2, RRrx := dq 15 2, RRbleed := dq 217 2,
            description := "VTE provoked by nonsurgical major transient risk factor",
            category := "Symptomatic VTE" }),
   ("R4", { pVTE := dq 5 2, Tp := dq 38 2, RRt := dq 165 2, RRrx := dq 15 2, RRbleed := dq 217 2,
            description := "VTE provoked by pregnancy or postpartum",
            category := "Symptomatic VTE" }),
   ("R5", { pVTE := dq 5 2, Tp := dq 38 2, RRt := dq 165 2, RRrx := dq 15 2, RRbleed := dq 217 2,
            description := "VTE associated with combined oral contraceptive use",
            category := "Symptomatic VTE" }),
   ("R6", { pVTE := dq 75 3, Tp := dq 38 2, RRt := dq 165 2, RRrx := dq 15 2, RRbleed := dq 217 2,
            description := "Unspecified type of VTE",
            category := "Symptomatic VTE" }),
   ("R7", { pVTE := dq 38 3, Tp := dq 436 3, RRt := dq 165 2, RRrx := dq 15 2, RRbleed := dq 217 2,
            description := "Cerebral venous thrombosis - discontinue setting",
            category := "VTE in Unusual Sites" }),
   ("R8", { pVTE := dq 38 3, Tp := dq 436 3, RRt := dq 165 2, RRrx := dq 15 2, RRbleed := dq 217 2,
            description := "Cerebral venous thrombosis - continue indefinitely",
            category := "VTE in Unusual Sites" }),
   ("R9", { pVTE := dq 5 2, Tp := dq 416 3, RRt := dq 165 2, RRrx := dq 15 2, RRbleed := dq 217 2,
            description := "Splanchnic venous thrombosis - discontinue setting",
            category := "VTE in Unusual Sites" }),
   ("R10", { pVTE := dq 5 2, Tp := dq 416 3, RRt := dq 165 2, RRrx := dq 15 2, RRbleed := dq 217 2,
             description := "Splanchnic venous thrombosis - continue indefinitely",
             category := "VTE in Unusual Sites" })]

/-- The `r11_14_data` table (generate_complete_data.py lines 95-112). -/
def r11_14_data : List Row8 :=
  [⟨"R11a", dq 15 3, dq 5 1, dq 271 2, dq 54 2, dq 4 3, dq 209 2, "First-degree relative with FVL, minor provoking risk factor"⟩,
   ⟨"R11b", dq 15 3, dq 5 1, dq 235 2, dq 54 2, dq 4 3, dq 209 2, "First-degree relative with PGM, minor provoking risk factor"⟩,
   ⟨"R11c", dq 5 2, dq 5 1, dq 1217 2, dq 54 2, dq 4 3, dq 209 2, "First-degree relative with Protein C deficiency, minor risk factor"⟩,
   ⟨"R11d", dq 5 2, dq 5 1, dq 747 2, dq 54 2, dq 4 3, dq 209 2, "First-degree relative with Protein S deficiency, minor risk factor"⟩,
   ⟨"R11e", dq 5 2, dq 5 1, dq 598 2, dq 54 2, dq 4 3, dq 209 2, "First-degree relative with Antithrombin deficiency, minor risk factor"⟩,
   ⟨"R12a", dq 15 3, dq 512 3, dq 282 2, dq 54 2, dq 4 3, dq 209 2, "Panel testing - FVL known in family"⟩,
   ⟨"R12b", dq 15 3, dq 524 3, dq 255 2, dq 54 2, dq 4 3, dq 209 2, "Panel testing - PGM known in family"⟩,
   ⟨"R12c", dq 5 2, dq 533 3, dq 1176 2, dq 54 2, dq 4 3, dq 209 2, "Panel testing - Protein C deficiency known in family"⟩,
   ⟨"R12d", dq 5 2, dq 533 3, dq 736 2, dq 54 2, dq 4 3, dq 209 2, "Panel testing - Protein S deficiency known in family"⟩,
   ⟨"R12e", dq 5 2, dq 534 3, dq 598 2, dq 54 2, dq 4 3, dq 209 2, "Panel testing - Antithrombin deficiency known in family"⟩,
   ⟨"R13", dq 12 3, dq 142 3, dq 389 2, dq 54 2, dq 4 3, dq 209 2, "Family history of VTE, unknown thrombophilia status, minor risk factor"⟩,
   ⟨"R14a", dq 75 4, dq 5 1, dq 271 2, dq 54 2, dq 4 3, dq 209 2, "Family history of FVL (no VTE), minor risk factor"⟩,
   ⟨"R14b", dq 75 4, dq 5 1, dq 254 2, dq 54 2, dq 4 3, dq 209 2, "Family history of PGM (no VTE), minor risk factor"⟩,
   ⟨"R14c", dq 25 3, dq 5 1, dq 1217 2, dq 54 2, dq 4 3, dq 209 2, "First-degree relative with Protein C (no VTE), minor risk factor"⟩,
   ⟨"R14d", dq 25 3, dq 5 1, dq 747 2, dq 54 2, dq 4 3, dq 209 2, "First-degree relative with Protein S (no VTE), minor risk factor"⟩,
   ⟨"R14e", dq 25 3, dq 5 1, dq 598 2, dq 54 2, dq 4 3, dq 209 2, "First-degree relative with Antithrombin (no VTE), minor risk factor"⟩]

/-- The `r15_20_data` table (generate_complete_data.py lines 132-154). -/
def r15_20_data : List Row7 :=
  [⟨"R15", dq 35 5, dq 685 4, dq 589 2, dq 35 1, dq 595 4, "General population women considering COC"⟩,
   ⟨"R16a", dq 2 3, dq 685 4, dq 18 1, dq 222 2, dq 1077 4, "General population women considering HRT - estrogen alone"⟩,
   ⟨"R16b", dq 2 3, dq 685 4, dq 18 1, dq 428 2, dq 1559 4, "General population women considering HRT - combined"⟩,
   ⟨"R17", dq 12 4, dq 142 3, dq 387 2, dq 35 1, dq 595 4, "Women with family history of VTE considering COC"⟩,
   ⟨"R18a", dq 3 3, dq 142 3, dq 208 2, dq 222 2, dq 1077 4, "Women with family history of VTE considering HRT - estrogen"⟩,
   ⟨"R18b", dq 3 3, dq 142 3, dq 208 2, dq 428 2, dq 1559 4, "Women with family history of VTE considering HRT - combined"⟩,
   ⟨"R19a", dq 25 4, dq 5 1, dq 271 2, dq 35 1, dq 595 4, "Women with known FVL in family considering COC"⟩,
   ⟨"R19b", dq 25 4, dq 5 1, dq 235 2, dq 35 1, dq 595 4, "Women with known PGM in family considering COC"⟩,
   ⟨"R19c", dq 84 4, dq 5 1, dq 1207 2, dq 35 1, dq 595 4, "Women with known Protein C deficiency considering COC"⟩,
   ⟨"R19d", dq 63 4, dq 5 1, dq 724 2, dq 35 1, dq 595 4, "Women with known Protein S deficiency considering COC"⟩,
   ⟨"R19e", dq 49 4, dq 5 1, dq 598 2, dq 35 1, dq 595 4, "Women with known Antithrombin deficiency considering COC"⟩,
   ⟨"R20a", dq 25 4, dq 5 1, dq 26 1, dq 222 2, dq 1077 4, "Women with known FVL considering HRT - estrogen"⟩,
   ⟨"R20b", dq 25 4, dq 5 1, dq 26 1, dq 428 2, dq 1559 4, "Women with known FVL considering HRT - combined"⟩,
   ⟨"R20c", dq 25 4, dq 5 1, dq 8 1, dq 222 2, dq 1077 4, "Women with known PGM considering HRT - estrogen"⟩,
   ⟨"R20d", dq 25 4, dq 5 1, dq 8 1, dq 428 2, dq 1559 4, "Women with known PGM considering HRT - combined"⟩,
   ⟨"R20e", dq 84 4, dq 5 1, dq 17 1, dq 222 2, dq 1077 4, "Women with Protein C deficiency considering HRT - estrogen"⟩,
   ⟨"R20f", dq 84 4, dq 5 1, dq 17 1, dq 428 2, dq 1559 4, "Women with Protein C deficiency considering HRT - combined"⟩,
   ⟨"R20g", dq 63 4, dq 5 1, dq 18 1, dq 222 2, dq 1077 4, "Women with Protein S deficiency considering HRT - estrogen"⟩,
   ⟨"R20h", dq 63 4, dq 5 1, dq 18 1, dq 428 2, dq 1559 4, "Women with Protein S deficiency considering HRT - combined"⟩,
   ⟨"R20i", dq 49 4, dq 5 1, dq 19 1, dq 222 2, dq 1077 4, "Women with Antithrombin deficiency considering HRT - estrogen"⟩,
   ⟨"R20j", dq 49 4, dq 5 1, dq 19 1, dq 428 2, dq 1559 4, "Women with Antithrombin deficiency considering HRT - combined"⟩]

/-- The `r21_23_data` table (generate_complete_data.py lines 175-188). -/
def r21_23_data : List Row8 :=
  [⟨"R21a", dq 375 4, dq 25 2, dq 2096 2, dq 41 2, dq 634 5, dq 321 2, "Pregnant with homozygous FVL - antepartum prophylaxis"⟩,
   ⟨"R21b", dq 18 3, dq 5 1, dq 1051 2, dq 41 2, dq 634 5, dq 321 2, "Pregnant with compound heterozygous FVL/PGM - antepartum"⟩,
   ⟨"R21c", dq 4 3, dq 5 1, dq 604 2, dq 41 2, dq 634 5, dq 321 2, "Pregnant with heterozygous FVL - antepartum prophylaxis"⟩,
   ⟨"R21d", dq 8 3, dq 5 1, dq 503 2, dq 41 2, dq 634 5, dq 321 2, "Pregnant with heterozygous PGM - antepartum prophylaxis"⟩,
   ⟨"R21e", dq 2025 5, dq 25 2, dq 936 2, dq 41 2, dq 634 5, dq 321 2, "Pregnant with Protein C/S/AT deficiency - antepartum"⟩,
   ⟨"R22a", dq 375 4, dq 25 2, dq 2096 2, dq 41 2, dq 846 5, dq 338 2, "Postpartum with homozygous FVL - postpartum prophylaxis"⟩,
   ⟨"R22b", dq 18 3, dq 5 1, dq 1051 2, dq 41 2, dq 846 5, dq 338 2, "Postpartum with compound heterozygous FVL/PGM"⟩,
   ⟨"R22c", dq 4 3, dq 5 1, dq 604 2, dq 41 2, dq 846 5, dq 338 2, "Postpartum with heterozygous FVL"⟩,
   ⟨"R22d", dq 8 3, dq 5 1, dq 503 2, dq 41 2, dq 846 5, dq 338 2, "Postpartum with heterozygous PGM"⟩,
   ⟨"R22e", dq 2025 5, dq 25 2, dq 936 2, dq 41 2, dq 846 5, dq 338 2, "Postpartum with Protein C/S/AT deficiency"⟩,
   ⟨"R23a", dq 5 2, dq 142 3, dq 328 2, dq 61 2, dq 36 4, dq 165 2, "Pregnant with family history VTE, unknown thrombophilia - antepartum"⟩,
   ⟨"R23b", dq 66 3, dq 142 3, dq 328 2, dq 61 2, dq 8 3, dq 165 2, "Postpartum with family history VTE, unknown thrombophilia"⟩]

/-- Python `d.get(k, dflt)` on the `ash_decisions` dict (modelled as an
association list in insertion order, keys unique). -/
def dictGetD (d : List (String × String)) (k : String) (dflt : String) : String :=
  match d.lookup k with
  | some v => v
  | none => dflt

/-- Python `risk_level.upper()`. -/
def upperStr (s : String) : String := String.mk (s.data.map Char.toUpper)

/-- The R1-R10 build loop (lines 72-92): each base scenario expands into a
`low` and a `high` variant. -/
def r1_10_records (ash : List (String × String)) : List Recommendation :=
  r1_10_base.flatMap (fun bp =>
    (["low", "high"]).map (fun risk_level =>
      let rec_id := bp.1 ++ " " ++ risk_level
      let H : ℚ := if risk_level == "low" then dq 5 3 else dq 15 3
      { id := rec_id,
        pVTE := bp.2.pVTE,
        Tp := bp.2.Tp,
        RRt := bp.2.RRt,
        RRrx := bp.2.RRrx,
        H_low := H,
        H_high := H,
        RRbleed := bp.2.RRbleed,
        decimals := if bp.2.pVTE < dq 1 1 then 2 else 1,
        description := bp.2.description ++ " (" ++ upperStr risk_level ++ " bleeding risk)",
        ashDecision := dictGetD ash rec_id "Unknown",
        category := bp.2.category,
        group := "R1-R10",
        bleedingRisk := some risk_level,
        isReversed := none }))

/-- The R11-R14 build loop (lines 114-129). -/
def r11_14_records (ash : List (String × String)) : List Recommendation :=
  r11_14_data.map (fun t =>
    { id := t.id,
      pVTE := t.pvte,
      Tp := t.tp,
      RRt := t.rrt,
      RRrx := t.rrrx,
      H_low := t.h,
      H_high := t.h,
      RRbleed := t.rrbleed,
      decimals := if t.pvte < dq 1 2 then 3 else 2,
      description := t.desc,
      ashDecision := dictGetD ash t.id "Unknown",
      category := "Asymptomatic with Family History",
      group := "R11-R14",
      bleedingRisk := none,
      isReversed := none })

/-- The R15-R20 build loop (lines 156-172); `RRbleed` is the Python int `1`
(not applicable for hormonal scenarios) and `isReversed` is set. -/
def r15_20_records (ash : List (String × String)) : List Recommendation :=
  r15_20_data.map (fun t =>
    { id := t.id,
      pVTE := t.pvte,
      Tp := t.tp,
      RRt := t.rrt,
      RRrx := t.rrrx,
      H_low := t.h,
      H_high := t.h,
      RRbleed := 1,
      decimals := 4,
      description := t.desc,
      ashDecision := dictGetD ash t.id "Unknown",
      category := "Women Considering COC/HRT",
      group := "R15-R20",
      bleedingRisk := none,
      isReversed := some true })

/-- The R21-R23 build loop (lines 190-205). -/
def r21_23_records (ash : List (String × String)) : List Recommendation :=
  r21_23_data.map (fun t =>
    { id := t.id,
      pVTE := t.pvte,
      Tp := t.tp,
      RRt := t.rrt,
      RRrx := t.rrrx,
      H_low := t.h,
      H_high := t.h,
      RRbleed := t.rrbleed,
      decimals := if t.pvte < dq 1 2 then 4 else 3,
      description := t.desc,
      ashDecision := dictGetD ash t.id "Unknown",
      category := "Women Planning Pregnancy",
      group := "R21-R23",
      bleedingRisk := none,
      isReversed := none })

/-- The full `recommendations` list assembled by the Catalog Builder, as a
function of the externally sourced `ash_decisions` mapping (which the script
reads from the Excel Agreement sheet; its values are restricted to
NoRx/Test/Rx by the loading loop). -/
def recommendations (ash : List (String × String)) : List Recommendation :=
  r1_10_records ash ++ r11_14_records ash ++ r15_20_records ash ++ r21_23_records ash

/-- Decision thresholds returned by `calculate_thresholds`
(verify_calculations.py lines 97-125): the dict {'Ptt': Ptt, 'Pt': Pt}. -/
structure Thresholds where
  Ptt : ℚ
  Pt : ℚ
deriving DecidableEq

/-- The parameter dict passed to `calculate_thresholds`; the default field
values are the `params.get` defaults of the source. -/
structure EutParams where
  RV : ℚ := 1
  RRbleed : ℚ := dq 217 2
  H : ℚ := dq 5 3
  RRrx : ℚ := dq 15 2
  Tp : ℚ := dq 38 2
  RRt : ℚ := dq 165 2
deriving DecidableEq

/-- The function `calculate_thresholds(params, is_reversed)` (verify_calculations.py
lines 97-125). -/
def calculate_thresholds (p : EutParams) (is_reversed : Bool) : Thresholds :=
  if is_reversed then
    let Pt := p.RV * p.H / (p.RRrx - 1)
    { Ptt := Pt * (p.RRt * p.Tp + (1 - p.Tp)), Pt := Pt }
  else
    let Pt := p.RV * (p.RRbleed - 1) * p.H / (1 - p.RRrx)
    { Ptt := ((p.RRt * p.Tp + (1 - p.Tp)) / p.RRt) * Pt, Pt := Pt }

/-- The function `determine_decision(pVTE, thresholds, is_reversed)` (verify_calculations.py
lines 127-145). -/
def determine_decision (pVTE : ℚ) (t : Thresholds) (is_reversed : Bool) : String :=
  if is_reversed then
    if pVTE < t.Pt then "Rx"
    else if pVTE > t.Ptt then "NoRx"
    else "Test"
  else
    if pVTE < t.Ptt then "NoRx"
    else if pVTE > t.Pt then "Rx"
    else "Test"

/-- The per-family decimals tiering policy as stated by the specification
(claim C8): R1-R10 gate at 0.1 with tiers {1,2}; R11-R14 gate at 0.01 with
tiers {2,3}; R21-R23 gate at 0.01 with tiers {3,4}; R15-R20 fixed at 4.
This definition follows the spec wording and is compared against the records
the builder constructs. -/
def decimalsSpec (group : String) (pvte : ℚ) : Option Nat :=
  if group == "R1-R10" then some (if pvte < dq 1 1 then 2 else 1)
  else if group == "R11-R14" then some (if pvte < dq 1 2 then 3 else 2)
  else if group == "R21-R23" then some (if pvte < dq 1 2 then 4 else 3)
  else if group == "R15-R20" then some 4
  else none

/-! ## Serialization of the `data.js` artifact (generate_complete_data.py 223-256)

The builder serializes `recommendations` with `json.dumps(..., indent=4)` and
wraps it in a JS header/footer.  Python ints are serialized without a decimal
point and Python floats with their shortest-round-trip decimal repr; for every
numeric literal in the tables that repr is just the literal without trailing
zeros, which for an exact rational is its finite decimal expansion.  The only
integer-valued numerics in the records are Python ints (`decimals` and the
R15-R20 `RRbleed = 1`), so a denominator-1 rational prints without ".0",
matching the source output exactly. -/

/-- Fraction digits of `num / den` (with `num < den`), most significant first.
Fuel-bounded; every value serialized by the builder has a finite decimal
expansion, and 30 digits are far more than any of them needs. -/
def fracDigits : Nat → Nat → Nat → List Char
  | 0, _, _ => []
  | _, _, 0 => []
  | fuel + 1, num, den =>
    if num = 0 then []
    else Char.ofNat (48 + num * 10 / den) :: fracDigits fuel (num * 10 % den) den

/-- The decimal string Python's `json.dumps` writes for a (nonnegative)
numeric field: integers without a point, floats as their terminating decimal
expansion. -/
def pyNumRepr (x : ℚ) : String :=
  if x.den = 1 then Nat.repr x.num.toNat
  else Nat.repr (x.num.toNat / x.den) ++ "." ++ (fracDigits 30 (x.num.toNat % x.den) x.den).asString

/-- A JSON string literal (none of the serialized strings needs escaping). -/
def jsonStr (s : String) : String := "\x22" ++ s ++ "\x22"

/-- The key/value pairs of one serialized record, in dict insertion order;
`bleedingRisk` / `isReversed` are emitted only when the Python dict has the
key. -/
def recFields (r : Recommendation) : List (String × String) :=
  [("id", jsonStr r.id),
   ("pVTE", pyNumRepr r.pVTE),
   ("Tp", pyNumRepr r.Tp),
   ("RRt", pyNumRepr r.RRt),
   ("RRrx", pyNumRepr r.RRrx),
   ("H_low", pyNumRepr r.H_low),
   ("H_high", pyNumRepr r.H_high),
   ("RRbleed", pyNumRepr r.RRbleed),
   ("decimals", Nat.repr r.decimals),
   ("description", jsonStr r.description),
   ("ashDecision", jsonStr r.ashDecision),
   ("category", jsonStr r.category),
   ("group", jsonStr r.group)]
  ++ (match r.bleedingRisk with
      | some b => [("bleedingRisk", jsonStr b)]
      | none => [])
  ++ (match r.isReversed with
      | some true => [("isReversed", "true")]
      | some false => [("isReversed", "false")]
      | none => [])

/-- Right-nested string concatenation (same result as any other association;
keeps kernel evaluation of the 30k-character artifact linear). -/
def joinStrs (l : List String) : String := l.foldr (fun a b => a ++ b) ""

/-- The pieces of a separator-interposed join. -/
def sepPieces (sep : String) (l : List String) : List String :=
  match l with
  | [] => []
  | a :: rest => a :: rest.flatMap (fun p => [sep, p])

/-- Interpose `sep` between the pieces. -/
def sepJoin (sep : String) (l : List String) : String := joinStrs (sepPieces sep l)

/-- One serialized field line of the indent-4 dump, without separator. -/
def fieldLine4 (kv : String × String) : String :=
  "        " ++ jsonStr kv.1 ++ ": " ++ kv.2

/-- The serialized text of one record under `json.dumps(..., indent=4)`. -/
def recStr4 (r : Recommendation) : String :=
  "    \x7b\n" ++ sepJoin ",\n" ((recFields r).map fieldLine4) ++ "\n    \x7d"

/-- Python `json.dumps(recs, indent=4)`: 4-space indent for array items, 8 for keys. -/
def jsonDumpIndent4 (recs : List Recommendation) : String :=
  match recs with
  | [] => "[]"
  | _ => "[\n" ++ sepJoin ",\n" (recs.map recStr4) ++ "\n]"

/-- The serialized text of one record under `json.dumps(..., indent=2)`. -/
def recStr2 (r : Recommendation) : String :=
  "  \x7b\n" ++
  sepJoin ",\n" ((recFields r).map (fun kv => "    " ++ jsonStr kv.1 ++ ": " ++ kv.2)) ++
  "\n  \x7d"

/-- Python `json.dumps(recs, indent=2)` (the complete_recommendations.json snapshot). -/
def jsonDumpIndent2 (recs : List Recommendation) : String :=
  match recs with
  | [] => "[]"
  | _ => "[\n" ++ sepJoin ",\n" (recs.map recStr2) ++ "\n]"

/-- The JS header of `data.js` (generate_complete_data.py lines 229-243). -/
def jsHeader : String :=
  sepJoin "\n"
    ["/**",
     " * ASH Thrombophilia Guidelines - Complete Recommendation Data (69 Recommendations)",
     " *",
     " * Generated from Excel reference file.",
     " *",
     " * Groups:",
     " * - R1-R10 (20): Symptomatic VTE with LOW/HIGH bleeding risk variants",
     " * - R11-R14 (16): Asymptomatic with Family History",
     " * - R15-R20 (21): Women considering COC/HRT (INVERSE model)",
     " * - R21-R23 (12): Women Planning Pregnancy",
     " *",
     " * For R15-R20: RRrx > 1 means treatment INCREASES VTE risk (reversed logic)",
     " */",
     "",
     "const RECOMMENDATIONS = "]

/-- The JS footer of `data.js` (generate_complete_data.py lines 246-252). -/
def jsFooter : String :=
  ";\n\n// Export for Node.js (if needed)\nif (typeof module !== \x27undefined\x27 && module.exports) \x7b\n    module.exports = \x7b RECOMMENDATIONS \x7d;\n\x7d\n"

/-- The full `js_content` string written to `../data.js`. -/
def js_content (recs : List Recommendation) : String :=
  jsHeader ++ jsonDumpIndent4 recs ++ jsFooter

/-- The module-level tail of generate_complete_data.py (lines 207-256): after
assembling `recommendations` the script prints a summary and then writes the
JSON snapshot and `data.js` unconditionally; no code path raises or exits
early, so the result is always `ok` with both files. -/
def builderFinalize (recs : List Recommendation) :
    Except String (List (String × String)) :=
  Except.ok
    [("complete_recommendations.json", jsonDumpIndent2 recs),
     ("../data.js", js_content recs)]

/-- File names a builder run writes. -/
def writtenFiles (r : Except String (List (String × String))) : List String :=
  match r with
  | Except.ok fs => fs.map Prod.fst
  | Except.error _ => []

/-! ## The Verifier's parser of `data.js` (verify_calculations.py 65-95)

`load_js_data` first extracts the text between `const RECOMMENDATIONS = [` and
the first following `];` (a lazy regex), then scans it with

  rec_pattern = \x7b\s*id:\s*"([^"]+)".*?ashDecision:\s*"([^"]+)".*?pVTE:\s*([\d.]+)

under re.DOTALL.  The embedding below implements exactly this pattern's
backtracking semantics on the character list: the leading literal part is
deterministic, and each lazy `.*?LITERAL` segment tries successive positions
left to right, retrying at the next position when the continuation fails. -/

/-- Python `\s` on the ASCII whitespace the artifact can contain. -/
def isPyWs (c : Char) : Bool :=
  c = ' ' || c = '\t' || c = '\n' || c = '\r' || c = '\x0b' || c = '\x0c'

/-- Skip `\s*` maximally (safe here: every follower of `\s*` in the pattern is
a non-whitespace character, so the maximal munch is the only viable one). -/
def skipWs : List Char → List Char
  | [] => []
  | c :: cs => if isPyWs c then skipWs cs else c :: cs

/-- The regex piece `([^"]+)"`: a nonempty capture up to the closing quote. -/
def grabUntilQuote : List Char → Option (List Char × List Char)
  | [] => none
  | c :: cs =>
    if c = '\x22' then none
    else
      match cs with
      | [] => none
      | _ =>
        match grabUntilQuote cs with
        | some (cap, rest) => some (c :: cap, rest)
        | none => if cs.headD ' ' = '\x22' then some ([c], cs.tail) else none

/-- The regex piece `.*?LIT` followed by continuation `k`: try the literal at each successive
position (lazy) and backtrack into later positions whenever `k` fails. -/
def lazyLit (lit : List Char) (k : List Char → Option α) : List Char → Option α
  | [] => none
  | c :: cs =>
    match (if lit.isPrefixOf (c :: cs) then k ((c :: cs).drop lit.length) else none) with
    | some r => some r
    | none => lazyLit lit k cs

/-- The regex piece `([\d.]+)`: greedy digits-and-dots capture, nonempty. -/
def grabNumChars : List Char → (List Char × List Char)
  | [] => ([], [])
  | c :: cs =>
    if c.isDigit || c = '.' then
      let (cap, rest) := grabNumChars cs
      (c :: cap, rest)
    else ([], c :: cs)

/-- One attempt of `rec_pattern` anchored at the current position.  Returns
the three captures (id, ashDecision, pVTE text) and the text after the match. -/
def matchRecAt (s : List Char) : Option ((String × String × String) × List Char) :=
  match s with
  | '\x7b' :: rest =>
    let r1 := skipWs rest
    if ['i', 'd', ':'].isPrefixOf r1 then
      match skipWs (r1.drop 3) with
      | '\x22' :: r2 =>
        match grabUntilQuote r2 with
        | some (idCap, r3) =>
          lazyLit ['a','s','h','D','e','c','i','s','i','o','n',':']
            (fun r4 =>
              match skipWs r4 with
              | '\x22' :: r5 =>
                match grabUntilQuote r5 with
                | some (ashCap, r6) =>
                  lazyLit ['p','V','T','E',':']
                    (fun r7 =>
                      match grabNumChars (skipWs r7) with
                      | ([], _) => none
                      | (numCap, r8) =>
                        some ((idCap.asString, ashCap.asString, numCap.asString), r8)) r6
                | none => none
              | _ => none) r3
        | none => none
      | _ => none
    else none
  | _ => none

/-- The scan `rec_pattern.finditer`: left to right, resuming after each match.
Fuel bounds the number of scan steps; it is initialized to the text length,
which suffices because every step consumes at least one character. -/
def scanRecs : Nat → List Char → List (String × String × String)
  | 0, _ => []
  | _, [] => []
  | fuel + 1, c :: cs =>
    match matchRecAt (c :: cs) with
    | some (caps, rest) => caps :: scanRecs fuel rest
    | none => scanRecs fuel cs

/-- Split at the first occurrence of `pat`: `(before, after)`. -/
def splitFirstAux (pat : List Char) (acc : List Char) : List Char → Option (List Char × List Char)
  | [] => none
  | c :: cs =>
    if pat.isPrefixOf (c :: cs) then some (acc.reverse, (c :: cs).drop pat.length)
    else splitFirstAux pat (c :: acc) cs

/-- First occurrence of `pat` in `s`, with the text before and after it. -/
def splitFirst (pat : List Char) (s : List Char) : Option (List Char × List Char) :=
  splitFirstAux pat [] s

/-- A parsed entry of the verifier's `js_data` dict. -/
structure JsRec where
  ash_decision : String
  pvte : ℚ
deriving DecidableEq

/-- Python `float(text)` for the `[\d.]+` capture: digits with at most one dot
(`none` models the ValueError Python would raise otherwise). -/
def parseFloatQ (s : String) : Option ℚ :=
  match splitFirst ['.'] s.data with
  | none =>
    if s.data ≠ [] && s.data.all Char.isDigit then
      some ((s.data.foldl (fun n c => n * 10 + (c.toNat - 48)) 0 : Nat) : ℚ)
    else none
  | some (ip, fp) =>
    if (ip.all Char.isDigit) && (fp.all Char.isDigit) && (ip ≠ [] || fp ≠ []) then
      some (mkRat ((ip ++ fp).foldl (fun n c => n * 10 + (c.toNat - 48)) 0) (10 ^ fp.length))
    else none

/-- Python dict assignment `d[k] = v` (overwrite keeps the original position). -/
def dictInsert (d : List (String × JsRec)) (k : String) (v : JsRec) : List (String × JsRec) :=
  if (d.lookup k).isSome then d.map (fun p => if p.1 == k then (k, v) else p)
  else d ++ [(k, v)]

/-- The lazy extraction regex `const RECOMMENDATIONS = \[(.*?)\];` of
`load_js_data`: the text between the marker and the first following `];`
(`none` models the ValueError raised when the regex does not match). -/
def extractArray (content : String) : Option (List Char) :=
  (splitFirst "const RECOMMENDATIONS = [".data content.data).bind
    (fun pr => (splitFirst "];".data pr.2).map (fun pr2 => pr2.1))

/-- The `js_data` dict built from the record-regex captures (`none` models the
ValueError `float()` would raise on a malformed number). -/
def buildJsDict (l : List (String × String × String)) : Option (List (String × JsRec)) :=
  l.foldlM
    (fun d caps =>
      match parseFloatQ caps.2.2 with
      | some pv => some (dictInsert d caps.1 ⟨caps.2.1, pv⟩)
      | none => none) []

/-- The function `load_js_data` (verify_calculations.py lines 65-95): extract the array
text, scan it with the record regex, and accumulate the dict.  `none` models
the exceptions the Python raises.  The result is the `js_data` dict in
insertion order. -/
def load_js_data (content : String) : Option (List (String × JsRec)) :=
  (extractArray content).bind
    (fun array_content => buildJsDict (scanRecs array_content.length array_content))

/-! ## The Verifier's comparison (verify_calculations.py 147-181) -/

/-- One entry of the Excel-derived `excel_data` dict (load_excel_data keeps a
row only when its ash decision is one of NoRx/Test/Rx; the pVTE cell may be
missing). -/
structure ExcelRec where
  ash_decision : String
  eut_decision : String
  pvte : Option ℚ
deriving DecidableEq

/-- One comparison result row appended by `compare_recommendations`. -/
structure CompResult where
  js_id : String
  excel_id : String
  js_ash : String
  excel_ash : String
  js_pvte : ℚ
  excel_pvte : Option ℚ
  ash_matches : Bool
deriving DecidableEq

/-- The `excel_matches` list for one js id: a direct hit, then the id with
" low" appended, then with " high" appended (verify_calculations.py 154-164). -/
def matchesFor (excel : List (String × ExcelRec)) (js_id : String) : List String :=
  (if (excel.lookup js_id).isSome then [js_id] else [])
  ++ (if (excel.lookup (js_id ++ " low")).isSome then [js_id ++ " low"] else [])
  ++ (if (excel.lookup (js_id ++ " high")).isSome then [js_id ++ " high"] else [])

/-- The result row built for one `(js_id, excel_id)` pair (lines 166-179);
note the source's differing fallbacks: `''` in the match test, `'N/A'` in the
displayed excel decision. -/
def mkRow (excel : List (String × ExcelRec)) (js_id : String) (js_rec : JsRec)
    (excel_id : String) : CompResult :=
  { js_id := js_id,
    excel_id := excel_id,
    js_ash := js_rec.ash_decision,
    excel_ash := match excel.lookup excel_id with
                 | some e => e.ash_decision
                 | none => "N/A",
    js_pvte := js_rec.pvte,
    excel_pvte := match excel.lookup excel_id with
                  | some e => e.pvte
                  | none => none,
    ash_matches := js_rec.ash_decision ==
      (match excel.lookup excel_id with
       | some e => e.ash_decision
       | none => "") }

/-- The function `compare_recommendations(excel_data, js_data)` (lines 147-181). -/
def compare_recommendations (excel : List (String × ExcelRec))
    (js : List (String × JsRec)) : List CompResult :=
  js.flatMap (fun sj => (matchesFor excel sj.1).map (mkRow excel sj.1 sj.2))

/-! ## Proof infrastructure for the round-trip analysis

Kernel evaluation cannot traverse the whole 30k-character artifact in one
recursion (stack depth), so the "no record-pattern match" fact is established
compositionally: a five-state automaton `braceStep` recognizes the occurrence
of an open brace followed by optional whitespace and `id:` (the part of
`rec_pattern` that anchors a record match); pieces of a few hundred characters
are checked by `decide`, and append lemmas combine the pieces. -/

/-- One step of the scanning automaton.  States: 0 nothing pending, 1 after
`\x7b` and optional whitespace, 2 after `\x7b\s*i`, 3 after `\x7b\s*id`, 4 the
anchor `\x7b\s*id:` has occurred somewhere (absorbing). -/
def braceStep (st : Nat) (c : Char) : Nat :=
  if st = 4 then 4
  else if st = 3 then (if c = ':' then 4 else if c = '\x7b' then 1 else 0)
  else if st = 2 then (if c = 'd' then 3 else if c = '\x7b' then 1 else 0)
  else if st = 1 then (if c = 'i' then 2 else if isPyWs c then 1 else if c = '\x7b' then 1 else 0)
  else (if c = '\x7b' then 1 else 0)

/-- Automaton state after a character list, from state `st`. -/
def braceRun (st : Nat) (cs : List Char) : Nat := cs.foldl braceStep st

/-- The string contains no `]` (so no `];` match can start inside it). -/
def noRb (s : String) : Bool := s.data.all (fun c => !(c == ']'))

/-- Piece check decided per serialized field line: the line contains no `]`,
and the automaton maps both state 0 and state 1 to state 0 across it (1
covers the pending `\x7b\s*` state left by the record's opening brace line). -/
def fieldLineOk (s : String) : Bool :=
  noRb s && (braceRun 0 s.data == 0) && (braceRun 1 s.data == 0)

/-- The check `cleanBefore pat pre`: no occurrence of `pat` starts inside
`pre` when `pre` is immediately followed by `pat`. -/
def cleanBefore (pat : List Char) : List Char → Bool
  | [] => true
  | c :: pre => !(pat.isPrefixOf ((c :: pre) ++ pat)) && cleanBefore pat pre

/-- The header text that precedes `const RECOMMENDATIONS = ` in `data.js`. -/
def hdrPre : String :=
  sepJoin "\n"
    ["/**",
     " * ASH Thrombophilia Guidelines - Complete Recommendation Data (69 Recommendations)",
     " *",
     " * Generated from Excel reference file.",
     " *",
     " * Groups:",
     " * - R1-R10 (20): Symptomatic VTE with LOW/HIGH bleeding risk variants",
     " * - R11-R14 (16): Asymptomatic with Family History",
     " * - R15-R20 (21): Women considering COC/HRT (INVERSE model)",
     " * - R21-R23 (12): Women Planning Pregnancy",
     " *",
     " * For R15-R20: RRrx > 1 means treatment INCREASES VTE risk (reversed logic)",
     " */",
     "",
     ""]

/-- The footer of `data.js` with the leading `;` removed (the `;` pairs with
the closing `]` of the array to form the `];` that ends the lazy extraction
group of `load_js_data`). -/
def ftrTail : String :=
  "\n\n// Export for Node.js (if needed)\nif (typeof module !== \x27undefined\x27 && module.exports) \x7b\n    module.exports = \x7b RECOMMENDATIONS \x7d;\n\x7d\n"

/-! ## Concrete inputs used by the witnesses and counterexamples -/

/-- Excel rows for the witness scenario: suffixed reference ids only. -/
def exLowC6 : ExcelRec := ⟨"Rx", "Rx", some (dq 10 2)⟩

/-- Second Excel row for the witness scenario. -/
def exHighC6 : ExcelRec := ⟨"NoRx", "NoRx", some (dq 10 2)⟩

/-- A catalog entry as `load_js_data` would produce it. -/
def jsRecC6 : JsRec := ⟨"Rx", dq 10 2⟩

/-- Excel row holding a valid decision, for the C7 witness. -/
def exC7 : ExcelRec := ⟨"Rx", "Rx", some (dq 15 3)⟩

/-- Catalog entry with an unresolved (Unknown) decision, for the C7 witness. -/
def jsC7 : JsRec := ⟨"Unknown", dq 15 3⟩

/-- The serialized array body of the artifact built from an empty decision
mapping (every `ashDecision` is the `Unknown` sentinel). -/
def bodyStr : String := sepJoin ",\n" ((recommendations []).map recStr4)

/-- The text of the artifact that precedes the first `];` after the marker
(the array content seen by the verifier's record regex). -/
def pre2C : List Char := '\n' :: (bodyStr.data ++ ['\n'])

/-- The text of the artifact that follows `const RECOMMENDATIONS = [`. -/
def rest1C : List Char := '\n' :: (bodyStr.data ++ ('\n' :: ']' :: ';' :: ftrTail.data))

/-! ## Automaton lemmas -/

/-- State 4 is absorbing. -/
theorem braceStep_four (c : Char) : braceStep 4 c = 4 := by
  simp [braceStep]

/-- A run from state 4 stays at 4. -/
theorem braceRun_absorb : ∀ cs : List Char, braceRun 4 cs = 4 := by
  intro cs
  induction cs with
  | nil => rfl
  | cons c cs ih =>
    show braceRun (braceStep 4 c) cs = 4
    rw [braceStep_four]
    exact ih

/-- Single-step simulation invariant between the run from 0 and the run from
an arbitrary state. -/
theorem braceStep_inv (c : Char) (a b : Nat) (h : b = a ∨ a = 0 ∨ b = 4) :
    braceStep b c = braceStep a c ∨ braceStep a c = 0 ∨ braceStep b c = 4 := by
  rcases h with h | h | h
  · subst h; left; rfl
  · subst h
    by_cases hc : c = '\x7b'
    · subst hc
      by_cases hb4 : b = 4
      · subst hb4; right; right; exact braceStep_four _
      · left
        by_cases hb3 : b = 3
        · subst hb3; simp [braceStep]
        · by_cases hb2 : b = 2
          · subst hb2; simp [braceStep]
          · by_cases hb1 : b = 1
            · subst hb1; simp [braceStep, isPyWs]
            · simp [braceStep, hb4, hb3, hb2, hb1]
    · right; left; simp [braceStep, hc]
  · subst h; right; right; exact braceStep_four c

/-- If the run from 0 reaches the absorbing state, so does the run from any
other start state (every full occurrence of the anchor is recognized from any
state, because `\x7b` always moves to state 1). -/
theorem braceRun_mono : ∀ (cs : List Char) (a b : Nat), (b = a ∨ a = 0 ∨ b = 4) →
    braceRun a cs = 4 → braceRun b cs = 4 := by
  intro cs
  induction cs with
  | nil =>
    intro a b h ha
    rcases h with h | h | h
    · rwa [h]
    · subst h; cases ha
    · exact h
  | cons c cs ih =>
    intro a b h ha
    exact ih (braceStep a c) (braceStep b c) (braceStep_inv c a b h) ha

/-- Whitespace keeps state 1 at 1, and an `id:` right after the whitespace
drives the run to 4. -/
theorem braceRun_skipWs : ∀ rest : List Char,
    ['i', 'd', ':'].isPrefixOf (skipWs rest) = true → braceRun 1 rest = 4 := by
  intro rest
  induction rest with
  | nil => intro h; simp [skipWs, List.isPrefixOf] at h
  | cons c cs ih =>
    intro h
    by_cases hws : isPyWs c = true
    · rw [skipWs, if_pos hws] at h
      have hne : c ≠ 'i' := by
        intro e; subst e; simp [isPyWs] at hws
      have hstep : braceStep 1 c = 1 := by simp [braceStep, hne, hws]
      show braceRun (braceStep 1 c) cs = 4
      rw [hstep]
      exact ih h
    · rw [skipWs, if_neg hws] at h
      simp only [List.isPrefixOf, Bool.and_eq_true, beq_iff_eq] at h
      obtain ⟨hci, h⟩ := h
      cases cs with
      | nil => simp [List.isPrefixOf] at h
      | cons c2 cs2 =>
        simp only [List.isPrefixOf, Bool.and_eq_true, beq_iff_eq] at h
        obtain ⟨hcd, h⟩ := h
        cases cs2 with
        | nil => simp [List.isPrefixOf] at h
        | cons c3 cs3 =>
          simp only [List.isPrefixOf, Bool.and_eq_true, beq_iff_eq] at h
          obtain ⟨hcc, _⟩ := h
          subst hci; subst hcd; subst hcc
          show braceRun (braceStep 1 'i') ('d' :: ':' :: cs3) = 4
          have e1 : braceStep 1 'i' = 2 := by simp [braceStep]
          rw [e1]
          show braceRun (braceStep 2 'd') (':' :: cs3) = 4
          have e2 : braceStep 2 'd' = 3 := by simp [braceStep]
          rw [e2]
          show braceRun (braceStep 3 ':') cs3 = 4
          have e3 : braceStep 3 ':' = 4 := by simp [braceStep]
          rw [e3]
          exact braceRun_absorb cs3

/-- A successful anchored record match forces the automaton run (from 0) to
the absorbing state. -/
theorem matchRec_braceRun (s : List Char) (r : (String × String × String) × List Char)
    (h : matchRecAt s = some r) : braceRun 0 s = 4 := by
  cases s with
  | nil => simp [matchRecAt] at h
  | cons c cs =>
    by_cases hc : c = '\x7b'
    · subst hc
      by_cases hp : ['i', 'd', ':'].isPrefixOf (skipWs cs) = true
      · show braceRun (braceStep 0 '\x7b') cs = 4
        have e : braceStep 0 '\x7b' = 1 := by simp [braceStep]
        rw [e]
        exact braceRun_skipWs cs hp
      · exfalso
        rw [matchRecAt] at h
        rw [if_neg hp] at h
        cases h
    · exfalso
      rw [matchRecAt.eq_def] at h
      simp only at h
      split at h
      · next heq =>
        rw [List.cons.injEq] at heq
        exact hc heq.1
      · cases h

/-- If the automaton run from some state avoids the absorbing state, the
record scan finds nothing. -/
theorem scanRecs_eq_nil : ∀ (cs : List Char) (fuel st : Nat),
    braceRun st cs ≠ 4 → scanRecs fuel cs = [] := by
  intro cs
  induction cs with
  | nil => intro fuel st _; cases fuel <;> rfl
  | cons c cs ih =>
    intro fuel st h
    have hm : matchRecAt (c :: cs) = none := by
      cases hmm : matchRecAt (c :: cs) with
      | none => rfl
      | some r =>
        exfalso
        exact h (braceRun_mono (c :: cs) 0 st (Or.inr (Or.inl rfl)) (matchRec_braceRun _ _ hmm))
    cases fuel with
    | zero => rfl
    | succ fuel =>
      show scanRecs (fuel + 1) (c :: cs) = []
      rw [scanRecs, hm]
      exact ih fuel (braceStep st c) h

/-! ## Composition of piece facts over joins -/

/-- Runs compose over string concatenation. -/
theorem braceRun_append (st : Nat) (a b : String) :
    braceRun st (a ++ b).data = braceRun (braceRun st a.data) b.data := by
  rw [String.data_append]; exact List.foldl_append _ _ _ _

/-- A join of pieces that each fix state 0 fixes state 0. -/
theorem braceRun_joinStrs : ∀ l : List String, (∀ s ∈ l, braceRun 0 s.data = 0) →
    braceRun 0 (joinStrs l).data = 0 := by
  intro l
  induction l with
  | nil => intro _; rfl
  | cons a t ih =>
    intro h
    show braceRun 0 (a ++ joinStrs t).data = 0
    rw [braceRun_append, h a (List.mem_cons_self a t)]
    exact ih (fun s hs => h s (List.mem_cons_of_mem a hs))

/-- Freeness from `]` propagates over joins. -/
theorem noRb_joinStrs : ∀ l : List String, (∀ s ∈ l, noRb s = true) →
    noRb (joinStrs l) = true := by
  intro l
  induction l with
  | nil => intro _; rfl
  | cons a t ih =>
    intro h
    have ha := h a (List.mem_cons_self a t)
    have ht := ih (fun s hs => h s (List.mem_cons_of_mem a hs))
    show noRb (a ++ joinStrs t) = true
    unfold noRb at ha ht ⊢
    rw [String.data_append, List.all_append, ha, ht]
    rfl

/-- Elements of `sepPieces sep l` are the separator or elements of `l`. -/
theorem mem_sepPieces (sep s : String) (l : List String) (h : s ∈ sepPieces sep l) :
    s = sep ∨ s ∈ l := by
  cases l with
  | nil => cases h
  | cons a t =>
    rcases List.mem_cons.mp h with h | h
    · right; exact h ▸ List.mem_cons_self a t
    · rcases List.mem_flatMap.mp h with ⟨p, hp, hmem⟩
      simp only [List.mem_cons, List.mem_singleton] at hmem
      rcases hmem with h | h | h
      · left; exact h
      · right; subst h; exact List.mem_cons_of_mem a hp
      · cases h

/-- The three conjuncts of a field-line check. -/
theorem fieldLineOk_split (s : String) (h : fieldLineOk s = true) :
    noRb s = true ∧ braceRun 0 s.data = 0 ∧ braceRun 1 s.data = 0 := by
  simp only [fieldLineOk, Bool.and_eq_true, beq_iff_eq] at h
  exact ⟨h.1.1, h.1.2, h.2⟩

/-- From state-0-fixing facts for every field line, the serialized record text
fixes state 0 and is `]`-free.  The record string opens with an indented brace
line (state 0 to 1), the first field line resolves the pending anchor back to
0, and everything after stays at 0. -/
theorem recStr4_facts (r : Recommendation)
    (h : ((recFields r).map fieldLine4).all fieldLineOk = true) :
    braceRun 0 (recStr4 r).data = 0 ∧ noRb (recStr4 r) = true := by
  have hERR : ∃ kv t, (recFields r).map fieldLine4 = fieldLine4 kv :: t := by
    refine ⟨("id", jsonStr r.id), ((recFields r).tail.map fieldLine4), ?_⟩
    rfl
  obtain ⟨kv, t, hlines⟩ := hERR
  rw [List.all_eq_true] at h
  have hkv : fieldLineOk (fieldLine4 kv) = true := by
    apply h; rw [hlines]; exact List.mem_cons_self _ _
  have ht : ∀ s ∈ t, fieldLineOk s = true := by
    intro s hs; apply h; rw [hlines]; exact List.mem_cons_of_mem _ hs
  constructor
  · show braceRun 0 ("    \x7b\n" ++ sepJoin ",\n" ((recFields r).map fieldLine4) ++ "\n    \x7d").data = 0
    rw [braceRun_append, braceRun_append]
    have h1 : braceRun 0 ("    \x7b\n" : String).data = 1 := by decide
    rw [h1]
    have h2 : braceRun 1 (sepJoin ",\n" ((recFields r).map fieldLine4)).data = 0 := by
      rw [hlines]
      show braceRun 1 (joinStrs (fieldLine4 kv :: t.flatMap (fun p => [",\n", p]))).data = 0
      show braceRun 1 (fieldLine4 kv ++ joinStrs (t.flatMap (fun p => [",\n", p]))).data = 0
      rw [braceRun_append, (fieldLineOk_split _ hkv).2.2]
      apply braceRun_joinStrs
      intro s hs
      rcases List.mem_flatMap.mp hs with ⟨p, hp, hmem⟩
      simp only [List.mem_cons, List.mem_singleton] at hmem
      rcases hmem with h | h | h
      · subst h; decide
      · subst h; exact (fieldLineOk_split _ (ht _ hp)).2.1
      · cases h
    rw [h2]
    decide
  · show noRb ("    \x7b\n" ++ sepJoin ",\n" ((recFields r).map fieldLine4) ++ "\n    \x7d") = true
    simp only [noRb, String.data_append, List.all_append, Bool.and_eq_true]
    refine ⟨⟨by decide, ?_⟩, by decide⟩
    have : noRb (sepJoin ",\n" ((recFields r).map fieldLine4)) = true := by
      apply noRb_joinStrs
      intro s hs
      rcases mem_sepPieces _ _ _ hs with h | h
      · subst h; decide
      · rw [hlines] at h
        rcases List.mem_cons.mp h with h | h
        · exact h ▸ (fieldLineOk_split _ hkv).1
        · exact (fieldLineOk_split _ (ht _ h)).1
    exact this

/-- Body-level composition: if all records pass the field-line checks, the
whole serialized array body fixes state 0 and contains no `]`. -/
theorem body_facts (recs : List Recommendation)
    (h : recs.all (fun r => ((recFields r).map fieldLine4).all fieldLineOk) = true) :
    braceRun 0 (sepJoin ",\n" (recs.map recStr4)).data = 0 ∧
    noRb (sepJoin ",\n" (recs.map recStr4)) = true := by
  rw [List.all_eq_true] at h
  have hall : ∀ s ∈ sepPieces ",\n" (recs.map recStr4),
      braceRun 0 s.data = 0 ∧ noRb s = true := by
    intro s hs
    rcases mem_sepPieces _ _ _ hs with hsep | hmem
    · subst hsep; exact ⟨by decide, by decide⟩
    · rcases List.mem_map.mp hmem with ⟨r, hr, hrs⟩
      subst hrs
      exact recStr4_facts r (h r hr)
  constructor
  · exact braceRun_joinStrs _ (fun s hs => (hall s hs).1)
  · exact noRb_joinStrs _ (fun s hs => (hall s hs).2)

/-! ## Locating the extraction markers -/

/-- A list is a prefix of itself extended. -/
theorem isPrefixOf_append_self : ∀ (pat y : List Char), pat.isPrefixOf (pat ++ y) = true := by
  intro pat
  induction pat with
  | nil => intro y; simp [List.isPrefixOf]
  | cons p ps ih =>
    intro y
    show ((p == p) && ps.isPrefixOf (ps ++ y)) = true
    rw [ih y, beq_self_eq_true]
    rfl

/-- The test `isPrefixOf` only inspects the first `pat.length` characters. -/
theorem isPrefixOf_of_long : ∀ (pat x y : List Char), pat.length ≤ x.length →
    pat.isPrefixOf (x ++ y) = pat.isPrefixOf x := by
  intro pat
  induction pat with
  | nil => intro x y _; simp [List.isPrefixOf]
  | cons p ps ih =>
    intro x y h
    cases x with
    | nil => simp at h
    | cons a x' =>
      show ((p == a) && ps.isPrefixOf (x' ++ y)) = ((p == a) && ps.isPrefixOf x')
      rw [ih x' y (Nat.le_of_succ_le_succ h)]

/-- The scan `splitFirstAux` finds the designated occurrence when no occurrence of the
pattern starts earlier. -/
theorem splitFirstAux_exact : ∀ (pre : List Char) (pat rest acc : List Char), pat ≠ [] →
    (∀ t p2 : List Char, pre = t ++ p2 → p2 ≠ [] → pat.isPrefixOf (p2 ++ (pat ++ rest)) = false) →
    splitFirstAux pat acc (pre ++ (pat ++ rest)) = some (acc.reverse ++ pre, rest) := by
  intro pre
  induction pre with
  | nil =>
    intro pat rest acc hne _
    cases pat with
    | nil => exact absurd rfl hne
    | cons p ps =>
      show splitFirstAux (p :: ps) acc (p :: (ps ++ rest)) = some (acc.reverse ++ [], rest)
      rw [splitFirstAux]
      have hcond : (p :: ps).isPrefixOf (p :: (ps ++ rest)) = true :=
        isPrefixOf_append_self (p :: ps) rest
      rw [if_pos hcond]
      have hd : List.drop (p :: ps).length (p :: (ps ++ rest)) = rest :=
        List.drop_left (p :: ps) rest
      rw [hd, List.append_nil]
  | cons c pre' ih =>
    intro pat rest acc hne hno
    show splitFirstAux pat acc (c :: (pre' ++ (pat ++ rest))) = some (acc.reverse ++ (c :: pre'), rest)
    rw [splitFirstAux]
    have hcond : pat.isPrefixOf (c :: (pre' ++ (pat ++ rest))) = false :=
      hno [] (c :: pre') rfl (by simp)
    have hcond' : ¬ (pat.isPrefixOf (c :: (pre' ++ (pat ++ rest))) = true) := by
      rw [hcond]; exact Bool.false_ne_true
    rw [if_neg hcond']
    rw [ih pat rest (c :: acc) hne ?hrec]
    case hrec =>
      intro t p2 he hp2
      exact hno (c :: t) p2 (by rw [he]; rfl) hp2
    rw [List.reverse_cons, List.append_assoc]
    rfl

/-- The split `splitFirst` at the designated occurrence. -/
theorem splitFirst_exact (pre pat rest : List Char) (hne : pat ≠ [])
    (hno : ∀ t p2 : List Char, pre = t ++ p2 → p2 ≠ [] →
      pat.isPrefixOf (p2 ++ (pat ++ rest)) = false) :
    splitFirst pat (pre ++ (pat ++ rest)) = some (pre, rest) := by
  have := splitFirstAux_exact pre pat rest [] hne hno
  simpa [splitFirst] using this

/-- The `cleanBefore` check implies the no-earlier-occurrence hypothesis of
`splitFirst_exact`, for any continuation text. -/
theorem cleanBefore_no_early : ∀ (t p2 pat rest : List Char),
    cleanBefore pat (t ++ p2) = true → p2 ≠ [] →
    pat.isPrefixOf (p2 ++ (pat ++ rest)) = false := by
  intro t
  induction t with
  | nil =>
    intro p2 pat rest hcb hne
    cases p2 with
    | nil => exact absurd rfl hne
    | cons c p2' =>
      rw [show ([] : List Char) ++ (c :: p2') = c :: p2' from rfl] at hcb
      rw [cleanBefore, Bool.and_eq_true] at hcb
      have h1 := hcb.1
      rw [Bool.not_eq_true'] at h1
      rw [← List.append_assoc]
      rw [isPrefixOf_of_long pat ((c :: p2') ++ pat) rest (by simp; omega)]
      exact h1
  | cons c t' ih =>
    intro p2 pat rest hcb hne
    rw [show (c :: t') ++ p2 = c :: (t' ++ p2) from rfl, cleanBefore, Bool.and_eq_true] at hcb
    exact ih p2 pat rest hcb.2 hne

/-- If the first character of the pattern does not occur in `pre`, no
occurrence of the pattern starts inside `pre`. -/
theorem headFree_no_early (h0 : Char) (patTail : List Char) :
    ∀ (pre p2 t rest : List Char), pre.all (fun c => !(c == h0)) = true →
    pre = t ++ p2 → p2 ≠ [] →
    (h0 :: patTail).isPrefixOf (p2 ++ ((h0 :: patTail) ++ rest)) = false := by
  intro pre p2 t rest hall hsplit hne
  cases p2 with
  | nil => exact absurd rfl hne
  | cons c p2' =>
    have hc : c ∈ pre := by
      rw [hsplit]; exact List.mem_append_right t (List.mem_cons_self c p2')
    rw [List.all_eq_true] at hall
    have := hall c hc
    rw [Bool.not_eq_true', beq_eq_false_iff_ne] at this
    show ((h0 == c) && _) = false
    rw [beq_eq_false_iff_ne.mpr (Ne.symm this)]
    rfl

/-! ## Assembly of the round-trip analysis -/

/-- Every serialized field line of every built record passes the piece check
(single decidable computation over all 69 records). -/
theorem recs_fieldLines_ok :
    ((recommendations []).all (fun r => ((recFields r).map fieldLine4).all fieldLineOk)) = true := by
  decide

/-- The artifact body fixes automaton state 0 and contains no `]`. -/
theorem bodyStr_facts : braceRun 0 bodyStr.data = 0 ∧ noRb bodyStr = true :=
  body_facts (recommendations []) recs_fieldLines_ok

/-- Character data of the marker line: the marker text followed by `[`. -/
theorem marker_data :
    ("const RECOMMENDATIONS = [").data = ("const RECOMMENDATIONS = ").data ++ ['['] := rfl

/-- Character data of the array opening. -/
theorem open_data : ("[\n").data = ['[', '\n'] := rfl

/-- Character data of the array closing. -/
theorem close_data : ("\n]").data = ['\n', ']'] := rfl

/-- Decomposition of the serialized artifact around the extraction marker. -/
theorem artifact_shape : (js_content (recommendations [])).data =
    hdrPre.data ++ ("const RECOMMENDATIONS = [".data ++ rest1C) := by
  have hB : jsonDumpIndent4 (recommendations []) = "[\n" ++ bodyStr ++ "\n]" := rfl
  show ((jsHeader ++ jsonDumpIndent4 (recommendations [])) ++ jsFooter).data = _
  rw [hB]
  rw [String.data_append, String.data_append, String.data_append, String.data_append]
  rw [show jsHeader.data = hdrPre.data ++ "const RECOMMENDATIONS = ".data from rfl]
  rw [show jsFooter.data = ';' :: ftrTail.data from rfl]
  rw [marker_data, open_data, close_data]
  simp only [rest1C, List.append_assoc, List.cons_append, List.singleton_append,
    List.nil_append]

/-- Runs of the automaton step through cons and append without evaluation. -/
theorem braceRun_cons (st : Nat) (c : Char) (cs : List Char) :
    braceRun st (c :: cs) = braceRun (braceStep st c) cs := rfl

/-- List-level composition of runs over append. -/
theorem braceRun_appendL (st : Nat) (a b : List Char) :
    braceRun st (a ++ b) = braceRun (braceRun st a) b := List.foldl_append _ _ _ _

/-- Regrouping of the post-marker text around the first `];`. -/
theorem rest1_decomp : rest1C = pre2C ++ ("];".data ++ ftrTail.data) := by
  symm
  rw [show pre2C ++ ("];".data ++ ftrTail.data) =
      '\n' :: ((bodyStr.data ++ ['\n']) ++ ("];".data ++ ftrTail.data)) from rfl]
  rw [List.append_assoc]
  rfl

/-- The lazy extraction regex of `load_js_data` matches with group 1 spanning
from right after `const RECOMMENDATIONS = [` to the first `];`. -/
theorem extraction_step1 :
    splitFirst "const RECOMMENDATIONS = [".data (js_content (recommendations [])).data =
      some (hdrPre.data, rest1C) := by
  rw [artifact_shape]
  apply splitFirst_exact
  · decide
  · intro t p2 hsplit hne
    apply cleanBefore_no_early t p2
    · rw [← hsplit]
      decide
    · exact hne

/-- The closing `];` of the extraction group is found right after the array
body (no `]` occurs earlier). -/
theorem extraction_step2 :
    splitFirst "];".data rest1C = some (pre2C, ftrTail.data) := by
  rw [rest1_decomp]
  apply splitFirst_exact
  · decide
  · intro t p2 hsplit hne
    have hall : (pre2C.all fun c => !(c == ']')) = true := by
      show (('\n' :: (bodyStr.data ++ ['\n'])).all fun c => !(c == ']')) = true
      rw [List.all_cons, List.all_append]
      have hb : (bodyStr.data.all fun c => !(c == ']')) = true := bodyStr_facts.2
      rw [hb]
      decide
    exact headFree_no_early ']' [';'] pre2C p2 t ftrTail.data hall hsplit hne

/-- The record regex finds no match in the extracted array content: the
automaton run over it never reaches the absorbing state. -/
theorem scan_empty : scanRecs pre2C.length pre2C = [] := by
  have e1 : braceRun 0 pre2C = braceRun 0 ('\n' :: (bodyStr.data ++ ['\n'])) := by
    simp only [pre2C]
  have e2 : braceRun 0 ('\n' :: (bodyStr.data ++ ['\n'])) =
      braceRun (braceStep 0 '\n') (bodyStr.data ++ ['\n']) := by
    rw [braceRun_cons]
  have e3 : braceRun (braceStep 0 '\n') (bodyStr.data ++ ['\n']) =
      braceRun (braceRun (braceStep 0 '\n') bodyStr.data) ['\n'] := by
    rw [braceRun_appendL]
  have e4 : braceRun (braceRun (braceStep 0 '\n') bodyStr.data) ['\n'] = 0 := by
    rw [show braceStep 0 '\n' = 0 from by decide]
    rw [bodyStr_facts.1]
    decide
  apply scanRecs_eq_nil pre2C pre2C.length 0
  rw [e1.trans (e2.trans (e3.trans e4))]
  decide

/-- Claim C1 (code_bug): the round-trip claimed by the specification fails on
the code.  The Catalog Builder serializes the 69 records with `json.dumps`
(quoted JSON keys), but the Verifier's `load_js_data` record regex expects
JS-style unquoted keys (`\x7b id: "..."`), so parsing the freshly serialized
artifact back yields an empty dict: all 69 records are lost, and no record
comes back with identical id, ashDecision and pVTE.  The theorem evaluates
the code at the failing input (the builder's artifact, here with an empty
decision mapping, i.e. every ashDecision = "Unknown"): the catalog has 69
records while the parse of its serialization returns `some []`. -/
theorem c1_roundtrip_serialize_parse :
    (recommendations []).length = 69 ∧
    load_js_data (js_content (recommendations [])) = some [] := by
  refine ⟨rfl, ?_⟩
  have hextract : extractArray (js_content (recommendations [])) = some pre2C := by
    rw [extractArray, extraction_step1, Option.some_bind]
    rw [extraction_step2, Option.map_some']
  rw [load_js_data, hextract, Option.some_bind]
  rw [scan_empty]
  rfl

/-- Claim C2 (counterexample): the builder writes both artifacts even when
the assembled record count deviates from 69 — here 68 records (the catalog
minus its last record) still produce both files and no error, contradicting
the claim that the builder halts with an explicit error before writing. -/
theorem c2_counterexample :
    ((recommendations []).take 68).length ≠ 69 ∧
    writtenFiles (builderFinalize ((recommendations []).take 68)) =
      ["complete_recommendations.json", "../data.js"] := by
  refine ⟨by decide, rfl⟩

/-- Claim C2 (amended): the module-level tail of generate_complete_data.py
performs no count check: for any assembled record list whose length deviates
from 69 it still writes complete_recommendations.json and data.js and never
terminates with an error. -/
theorem c2_amended (recs : List Recommendation) (_h : recs.length ≠ 69) :
    writtenFiles (builderFinalize recs) = ["complete_recommendations.json", "../data.js"] := rfl

/-- Witness for the amended C2 theorem at the empty record list. -/
theorem c2_amended_witness :
    (([] : List Recommendation).length ≠ 69) ∧
    writtenFiles (builderFinalize []) = ["complete_recommendations.json", "../data.js"] :=
  ⟨by decide, c2_amended [] (by decide)⟩

/-- Claim C3 (counterexample): at the actual parameters of record R20c
(RV=1, H=0.1077, RRrx=2.22, Tp=0.5, RRt=0.8) — a tuple satisfying every
constraint of the claim (RRrx > 1, RV > 0, H > 0, 0 ≤ Tp ≤ 1, RRt > 0) —
the reversed-model thresholds satisfy Ptt < Pt, refuting Pt ≤ Ptt. -/
theorem c3_counterexample :
    (1 : ℚ) < dq 222 2 ∧ (0 : ℚ) < 1 ∧ (0 : ℚ) < dq 1077 4 ∧ (0 : ℚ) ≤ dq 5 1 ∧
    dq 5 1 ≤ (1 : ℚ) ∧ (0 : ℚ) < dq 8 1 ∧
    ¬ ((calculate_thresholds ⟨1, 1, dq 1077 4, dq 222 2, dq 5 1, dq 8 1⟩ true).Pt ≤
       (calculate_thresholds ⟨1, 1, dq 1077 4, dq 222 2, dq 5 1, dq 8 1⟩ true).Ptt) := by
  refine ⟨by norm_num [dq, Rat.mkRat_eq_div], by norm_num, by norm_num [dq, Rat.mkRat_eq_div],
    by norm_num [dq, Rat.mkRat_eq_div], by norm_num [dq, Rat.mkRat_eq_div],
    by norm_num [dq, Rat.mkRat_eq_div], ?_⟩
  show ¬ ((1 : ℚ) * dq 1077 4 / (dq 222 2 - 1) ≤
    1 * dq 1077 4 / (dq 222 2 - 1) * (dq 8 1 * dq 5 1 + (1 - dq 5 1)))
  norm_num [dq, Rat.mkRat_eq_div]

/-- Claim C3 (amended): for the reversed/hormonal model, Pt ≤ Ptt holds for
every tuple with RRrx > 1, RV > 0, H > 0, 0 ≤ Tp ≤ 1 and RRt ≥ 1 (the extra
RRt ≥ 1 bound is forced by the counterexample: records R20c/R20d have
RRt = 0.8 < 1 and invert the inequality). -/
theorem c3_amended (p : EutParams) (h1 : 1 < p.RRrx) (h2 : 0 < p.RV) (h3 : 0 < p.H)
    (h4 : 0 ≤ p.Tp) (_h5 : p.Tp ≤ 1) (h6 : 1 ≤ p.RRt) :
    (calculate_thresholds p true).Pt ≤ (calculate_thresholds p true).Ptt := by
  have hden : (0 : ℚ) < p.RRrx - 1 := by linarith
  have hPt : (0 : ℚ) < p.RV * p.H / (p.RRrx - 1) := div_pos (mul_pos h2 h3) hden
  show p.RV * p.H / (p.RRrx - 1) ≤ p.RV * p.H / (p.RRrx - 1) * (p.RRt * p.Tp + (1 - p.Tp))
  have hfac : (1 : ℚ) ≤ p.RRt * p.Tp + (1 - p.Tp) := by nlinarith [mul_nonneg (sub_nonneg.mpr h6) h4]
  exact le_mul_of_one_le_right hPt.le hfac

/-- Witness for the amended C3 theorem at the parameters of record R15. -/
theorem c3_amended_witness :
    (calculate_thresholds ⟨1, 1, dq 595 4, dq 35 1, dq 685 4, dq 589 2⟩ true).Pt ≤
    (calculate_thresholds ⟨1, 1, dq 595 4, dq 35 1, dq 685 4, dq 589 2⟩ true).Ptt :=
  c3_amended ⟨1, 1, dq 595 4, dq 35 1, dq 685 4, dq 589 2⟩
    (by norm_num [dq, Rat.mkRat_eq_div]) (by norm_num)
    (by norm_num [dq, Rat.mkRat_eq_div]) (by norm_num [dq, Rat.mkRat_eq_div])
    (by norm_num [dq, Rat.mkRat_eq_div]) (by norm_num [dq, Rat.mkRat_eq_div])

/-- Claim C4 (counterexample): the tuple RV=1, RRbleed=2, H=1, RRrx=0.5,
Tp=0, RRt=0.5 satisfies every constraint of the claim (0 < RRrx < 1,
RRbleed > 1, RV > 0, H > 0, 0 ≤ Tp ≤ 1, RRt > 0) yet the standard-model
thresholds satisfy Pt < Ptt, refuting Ptt ≤ Pt. -/
theorem c4_counterexample :
    (0 : ℚ) < dq 5 1 ∧ dq 5 1 < (1 : ℚ) ∧ (1 : ℚ) < 2 ∧ (0 : ℚ) < 1 ∧ (0 : ℚ) < 1 ∧
    (0 : ℚ) ≤ 0 ∧ (0 : ℚ) ≤ 1 ∧ (0 : ℚ) < dq 5 1 ∧
    ¬ ((calculate_thresholds ⟨1, 2, 1, dq 5 1, 0, dq 5 1⟩ false).Ptt ≤
       (calculate_thresholds ⟨1, 2, 1, dq 5 1, 0, dq 5 1⟩ false).Pt) := by
  refine ⟨by norm_num [dq, Rat.mkRat_eq_div], by norm_num [dq, Rat.mkRat_eq_div], by norm_num,
    by norm_num, by norm_num, by norm_num, by norm_num, by norm_num [dq, Rat.mkRat_eq_div], ?_⟩
  show ¬ (((dq 5 1 * 0 + (1 - 0)) / dq 5 1) * ((1 : ℚ) * (2 - 1) * 1 / (1 - dq 5 1)) ≤
    (1 : ℚ) * (2 - 1) * 1 / (1 - dq 5 1))
  norm_num [dq, Rat.mkRat_eq_div]

/-- Claim C4 (amended): for the standard model, Ptt ≤ Pt holds for every
tuple with 0 < RRrx < 1, RRbleed > 1, RV > 0, H > 0, 0 ≤ Tp ≤ 1 and
RRt ≥ 1 (the extra RRt ≥ 1 bound is forced by the counterexample; every
standard-model record in the catalog has RRt ≥ 1.65). -/
theorem c4_amended (p : EutParams) (_h1 : 0 < p.RRrx) (h2 : p.RRrx < 1) (h3 : 1 < p.RRbleed)
    (h4 : 0 < p.RV) (h5 : 0 < p.H) (_h6 : 0 ≤ p.Tp) (h7 : p.Tp ≤ 1) (h8 : 1 ≤ p.RRt) :
    (calculate_thresholds p false).Ptt ≤ (calculate_thresholds p false).Pt := by
  have hRt : (0 : ℚ) < p.RRt := lt_of_lt_of_le one_pos h8
  have hPt : (0 : ℚ) < p.RV * (p.RRbleed - 1) * p.H / (1 - p.RRrx) :=
    div_pos (mul_pos (mul_pos h4 (by linarith)) h5) (by linarith)
  show ((p.RRt * p.Tp + (1 - p.Tp)) / p.RRt) * (p.RV * (p.RRbleed - 1) * p.H / (1 - p.RRrx)) ≤
    p.RV * (p.RRbleed - 1) * p.H / (1 - p.RRrx)
  have hfac : (p.RRt * p.Tp + (1 - p.Tp)) / p.RRt ≤ 1 := by
    rw [div_le_one hRt]
    nlinarith [mul_nonneg (sub_nonneg.mpr h8) (sub_nonneg.mpr h7)]
  exact mul_le_of_le_one_left hPt.le hfac

/-- Witness for the amended C4 theorem at the parameters of record R1. -/
theorem c4_amended_witness :
    (calculate_thresholds ⟨1, dq 217 2, dq 5 3, dq 15 2, dq 38 2, dq 165 2⟩ false).Ptt ≤
    (calculate_thresholds ⟨1, dq 217 2, dq 5 3, dq 15 2, dq 38 2, dq 165 2⟩ false).Pt :=
  c4_amended ⟨1, dq 217 2, dq 5 3, dq 15 2, dq 38 2, dq 165 2⟩
    (by norm_num [dq, Rat.mkRat_eq_div]) (by norm_num [dq, Rat.mkRat_eq_div])
    (by norm_num [dq, Rat.mkRat_eq_div]) (by norm_num)
    (by norm_num [dq, Rat.mkRat_eq_div]) (by norm_num [dq, Rat.mkRat_eq_div])
    (by norm_num [dq, Rat.mkRat_eq_div]) (by norm_num [dq, Rat.mkRat_eq_div])

/-- Claim C5 (confirmed): for any external decision mapping, the assembled
catalog has exactly 69 records, whose group field partitions them into 20
R1-R10, 16 R11-R14, 21 R15-R20 and 12 R21-R23 records, and whose ids are
pairwise distinct. -/
theorem c5_catalog_shape (ash : List (String × String)) :
    (recommendations ash).length = 69 ∧
    ((recommendations ash).filter (fun r => r.group == "R1-R10")).length = 20 ∧
    ((recommendations ash).filter (fun r => r.group == "R11-R14")).length = 16 ∧
    ((recommendations ash).filter (fun r => r.group == "R15-R20")).length = 21 ∧
    ((recommendations ash).filter (fun r => r.group == "R21-R23")).length = 12 ∧
    ((recommendations ash).map Recommendation.id).Nodup := by
  refine ⟨rfl, rfl, rfl, rfl, rfl, ?_⟩
  have h : (recommendations ash).map Recommendation.id =
      (recommendations []).map Recommendation.id := rfl
  rw [h]
  decide

/-- Claim C6 (counterexample): a catalog record with the suffixed id
"R1 low", compared against a reference mapping holding only the bare id
"R1", produces no comparison result at all — the record is silently skipped,
refuting the claimed bare-to-suffixed expansion. -/
theorem c6_counterexample :
    compare_recommendations [("R1", exLowC6)] [("R1 low", jsRecC6)] = [] := rfl

/-- Claim C6 (amended): the expansion implemented by compare_recommendations
runs in the opposite direction from the claim: a catalog record with a bare
id is paired one-to-many with the suffixed reference entries id+" low" and
id+" high" when those exist, while a catalog record whose id finds no exact,
" low"- or " high"-suffixed reference key yields no comparison result. -/
theorem c6_amended :
    (∀ (excel : List (String × ExcelRec)) (s : String) (j : JsRec) (e1 e2 : ExcelRec),
      excel.lookup s = none → excel.lookup (s ++ " low") = some e1 →
      excel.lookup (s ++ " high") = some e2 →
      (compare_recommendations excel [(s, j)]).map (fun row => (row.js_id, row.excel_id)) =
        [(s, s ++ " low"), (s, s ++ " high")]) ∧
    (∀ (excel : List (String × ExcelRec)) (s : String) (j : JsRec),
      excel.lookup s = none → excel.lookup (s ++ " low") = none →
      excel.lookup (s ++ " high") = none →
      compare_recommendations excel [(s, j)] = []) := by
  constructor
  · intro excel s j e1 e2 h0 h1 h2
    simp [compare_recommendations, matchesFor, mkRow, h0, h1, h2]
  · intro excel s j h0 h1 h2
    simp [compare_recommendations, matchesFor, h0, h1, h2]

/-- Witness for the amended C6 theorem: a bare catalog id "R1" expands to the
two suffixed reference rows, and the claim's own scenario (suffixed catalog
id, bare reference id) yields no result. -/
theorem c6_amended_witness :
    ((compare_recommendations [("R1 low", exLowC6), ("R1 high", exHighC6)]
        [("R1", jsRecC6)]).map (fun row => (row.js_id, row.excel_id)) =
      [("R1", "R1 low"), ("R1", "R1 high")]) ∧
    compare_recommendations [("R1", exHighC6)] [("R1 low", jsRecC6)] = [] :=
  ⟨c6_amended.1 [("R1 low", exLowC6), ("R1 high", exHighC6)] "R1" jsRecC6 exLowC6 exHighC6
      rfl rfl rfl,
   c6_amended.2 [("R1", exHighC6)] "R1 low" jsRecC6 rfl rfl rfl⟩

/-- Claim C7 (confirmed): a record whose id is absent from the external
decision mapping is built with ashDecision = "Unknown"; and during
verification, a paired catalog entry whose decision is "Unknown" always
yields a comparison row that is present in the results and has match flag
false whenever the reference decision is one of NoRx/Test/Rx. -/
theorem c7_unknown_never_matches :
    (∀ (ash : List (String × String)) (r : Recommendation), r ∈ recommendations ash →
      ash.lookup r.id = none → r.ashDecision = "Unknown") ∧
    (∀ (excel : List (String × ExcelRec)) (js : List (String × JsRec)) (s : String)
      (j : JsRec) (e : ExcelRec), (s, j) ∈ js → j.ash_decision = "Unknown" →
      excel.lookup s = some e → e.ash_decision ∈ (["NoRx", "Test", "Rx"] : List String) →
      ∃ row ∈ compare_recommendations excel js,
        row.js_id = s ∧ row.excel_id = s ∧ row.js_ash = "Unknown" ∧ row.ash_matches = false) := by
  constructor
  · intro ash r hr hl
    have key : r.ashDecision = dictGetD ash r.id "Unknown" := by
      simp only [recommendations, r1_10_records, r11_14_records, r15_20_records, r21_23_records,
        List.mem_append, List.mem_flatMap, List.mem_map] at hr
      rcases hr with (((⟨bp, hbp, risk, hrisk, rfl⟩) | ⟨t, ht, rfl⟩) | ⟨t, ht, rfl⟩) | ⟨t, ht, rfl⟩ <;>
        rfl
    rw [key]
    simp [dictGetD, hl]
  · intro excel js s j e hmem hjash hlook hdec
    refine ⟨mkRow excel s j s, ?_, rfl, rfl, hjash, ?_⟩
    · apply List.mem_flatMap.mpr
      refine ⟨(s, j), hmem, ?_⟩
      apply List.mem_map_of_mem (mkRow excel s j)
      simp [matchesFor, hlook]
    · show (j.ash_decision ==
        (match excel.lookup s with | some e => e.ash_decision | none => "")) = false
      rw [hlook, hjash]
      show ("Unknown" == e.ash_decision) = false
      simp only [List.mem_cons] at hdec
      rcases hdec with h | h | h | h
      · rw [h]; decide
      · rw [h]; decide
      · rw [h]; decide
      · cases h

/-- Witness for the C7 theorem: the record "R1 high" built with an empty
mapping carries "Unknown", and a concrete Unknown-vs-Rx pairing is reported
with match flag false. -/
theorem c7_witness :
    ((recommendations []).get ⟨1, by decide⟩).ashDecision = "Unknown" ∧
    ∃ row ∈ compare_recommendations [("R11a", exC7)] [("R11a", jsC7)],
      row.js_id = "R11a" ∧ row.excel_id = "R11a" ∧ row.js_ash = "Unknown" ∧
      row.ash_matches = false :=
  ⟨c7_unknown_never_matches.1 [] _ (List.get_mem _ _ _) rfl,
   c7_unknown_never_matches.2 [("R11a", exC7)] [("R11a", jsC7)] "R11a" jsC7 exC7
     (List.mem_singleton.mpr rfl) rfl rfl (by decide)⟩

/-- Claim C8 (confirmed): for any external decision mapping, the decimals
field of every built record is the deterministic function of its group and
pVTE stated by the spec: R1-R10 gives 2 below 0.1 else 1; R11-R14 gives 3
below 0.01 else 2; R21-R23 gives 4 below 0.01 else 3; R15-R20 gives 4. -/
theorem c8_decimals_policy (ash : List (String × String)) (r : Recommendation)
    (h : r ∈ recommendations ash) : decimalsSpec r.group r.pVTE = some r.decimals := by
  have hmem := List.mem_map_of_mem (fun x => (x.group, x.pVTE, x.decimals)) h
  have hmap : (recommendations ash).map (fun x => (x.group, x.pVTE, x.decimals)) =
      (recommendations []).map (fun x => (x.group, x.pVTE, x.decimals)) := rfl
  rw [hmap] at hmem
  have hall : ∀ t ∈ (recommendations []).map (fun x => (x.group, x.pVTE, x.decimals)),
      decimalsSpec t.1 t.2.1 = some t.2.2 := by decide
  exact hall _ hmem

/-- Witness for the C8 theorem at the first built record. -/
theorem c8_witness :
    decimalsSpec ((recommendations []).get ⟨0, by decide⟩).group
      ((recommendations []).get ⟨0, by decide⟩).pVTE =
    some ((recommendations []).get ⟨0, by decide⟩).decimals :=
  c8_decimals_policy [] _ (List.get_mem _ _ _)

/-- Claim C9 (counterexample): the record "R2 low" of the R1-R10 family has
pVTE = 0.01 and receives decimals = 2, not 1 — the builder's rule gives 2
whenever pVTE < 0.1. -/
theorem c9_counterexample :
    ((recommendations []).get ⟨2, by decide⟩).group = "R1-R10" ∧
    ((recommendations []).get ⟨2, by decide⟩).pVTE = dq 1 2 ∧
    ((recommendations []).get ⟨2, by decide⟩).decimals = 2 ∧
    ((recommendations []).get ⟨2, by decide⟩).decimals ≠ 1 :=
  ⟨rfl, rfl, rfl, by decide⟩

/-- Claim C9 (amended): every R1-R10 record with pVTE = 0.01 receives
decimals = 2 (the 0.1 gate is taken, giving the finer of the family's two
tiers), for any external decision mapping. -/
theorem c9_amended (ash : List (String × String)) (r : Recommendation)
    (h : r ∈ recommendations ash) (hg : r.group = "R1-R10") (hp : r.pVTE = dq 1 2) :
    r.decimals = 2 := by
  have hmem := List.mem_map_of_mem (fun x => (x.group, x.pVTE, x.decimals)) h
  have hmap : (recommendations ash).map (fun x => (x.group, x.pVTE, x.decimals)) =
      (recommendations []).map (fun x => (x.group, x.pVTE, x.decimals)) := rfl
  rw [hmap] at hmem
  have hall : ∀ t ∈ (recommendations []).map (fun x => (x.group, x.pVTE, x.decimals)),
      t.1 = "R1-R10" → t.2.1 = dq 1 2 → t.2.2 = 2 := by decide
  exact hall _ hmem hg hp

/-- Witness for the amended C9 theorem at the record "R2 low". -/
theorem c9_amended_witness : ((recommendations []).get ⟨2, by decide⟩).decimals = 2 :=
  c9_amended [] _ (List.get_mem _ _ _) rfl rfl

/-- Claim C10 (confirmed): determine_decision is total and deterministic (a
pure function of its inputs) and its range is exactly the three decision
strings: every output is NoRx, Test or Rx — including for degenerate or
inverted threshold pairs — and each of the three is attained in both the
standard and the reversed mode. -/
theorem c10_decision_total_range :
    (∀ (p : ℚ) (t : Thresholds) (rev : Bool),
      determine_decision p t rev = "NoRx" ∨ determine_decision p t rev = "Test" ∨
      determine_decision p t rev = "Rx") ∧
    (∃ p t, determine_decision p t false = "NoRx") ∧
    (∃ p t, determine_decision p t false = "Test") ∧
    (∃ p t, determine_decision p t false = "Rx") ∧
    (∃ p t, determine_decision p t true = "NoRx") ∧
    (∃ p t, determine_decision p t true = "Test") ∧
    (∃ p t, determine_decision p t true = "Rx") := by
  refine ⟨?_, ⟨0, ⟨1, 2⟩, by decide⟩, ⟨1, ⟨0, 2⟩, by decide⟩, ⟨3, ⟨1, 2⟩, by decide⟩,
    ⟨3, ⟨2, 1⟩, by decide⟩, ⟨1, ⟨2, 1⟩, by decide⟩, ⟨0, ⟨2, 1⟩, by decide⟩⟩
  intro p t rev
  cases rev <;> simp only [determine_decision] <;> split_ifs <;> simp

